import Mathlib

/-!
Shallow embedding of the status-polling / broadcast core of the P2P
downloader wrapper (src/backend/main.py, the libtorrent backend, and
src/backend/main_qbit.py, the qBittorrent backend).

Conventions:
- Python floats (progress fractions) are modelled as `ℚ`.
- Python ints (rates, sizes, counts) are modelled as `ℕ` (or `ℤ` where the
  code can produce a truncated division of a rational).
- A call into the external engine that can raise is modelled as
  `Except String α`; a `try/except` block in the source becomes a `match`
  on that value.
- The dict `active_downloads` is modelled as an association list whose
  order is insertion/iteration order; dict keys are unique in the source
  (fresh UUIDs), matching `List.eraseP` for `del d[k]`.
-/

namespace P2P

/-- The normalized status record built by both backends' `get_download_info`
(`DownloadInfo` in the source). -/
structure DownloadInfo where
  id : String
  name : String
  status : String
  progress : ℚ
  download_speed : ℕ
  upload_speed : ℕ
  num_peers : ℕ
  total_size : ℕ
  downloaded : ℤ
  remaining_time : Option ℕ
  save_path : String
deriving DecidableEq, Repr

/-- A WebSocket client connection in the broadcast hub. `sendOk` models
whether `connection.send_json` succeeds or raises (peer disconnected). -/
structure Conn where
  cid : ℕ
  sendOk : Bool
deriving DecidableEq, Repr

/-- `ConnectionManager` from both backends: the list of live WebSocket
connections (`self.active_connections`). -/
structure ConnectionManager where
  active_connections : List Conn
deriving DecidableEq, Repr

/-- `ConnectionManager.connect`: accept the socket and append it. -/
def ConnectionManager.connect (m : ConnectionManager) (ws : Conn) : ConnectionManager :=
  { m with active_connections := m.active_connections ++ [ws] }

/-- `ConnectionManager.disconnect`: remove the socket only if present
(`if websocket in self.active_connections: ...remove(websocket)`);
`list.remove` drops the first occurrence. -/
def ConnectionManager.disconnect (m : ConnectionManager) (ws : Conn) : ConnectionManager :=
  if ws ∈ m.active_connections then
    { m with active_connections := m.active_connections.erase ws }
  else m

/-- `ConnectionManager.broadcast`: iterate over every current connection,
`try: await connection.send_json(message) except: log`. The per-connection
exception handler swallows a failed send; nothing is removed from
`active_connections`. Returns the manager state after the call together
with the list of (connection, message) deliveries that succeeded. -/
def ConnectionManager.broadcast (m : ConnectionManager) (message : List DownloadInfo) :
    ConnectionManager × List (Conn × List DownloadInfo) :=
  (m, (m.active_connections.filter (fun c => c.sendOk)).map (fun c => (c, message)))

/-! ## libtorrent backend (src/backend/main.py) -/

/-- The libtorrent `torrent_status.state` values that `get_download_info`
distinguishes. -/
inductive LtState where
  | seeding
  | downloading
  | finished
  | checking_files
  | checking_resume_data
  | other
deriving DecidableEq, Repr

/-- The fields of a libtorrent `torrent_status` object read by the wrapper. -/
structure LtStatus where
  has_metadata : Bool
  state : LtState
  progress : ℚ
  download_rate : ℕ
  upload_rate : ℕ
  num_peers : ℕ
  total_wanted : ℕ
  total_wanted_done : ℕ
  save_path : String
  is_seeding : Bool
  all_time_upload : ℕ
deriving DecidableEq, Repr

/-- A libtorrent torrent handle as the wrapper uses it: `is_valid()`,
`name()`, and `status()`. The `status()` call reaches into the engine and
can raise, hence `Except`. -/
structure Handle where
  is_valid : Bool
  name : String
  status : Except String LtStatus
deriving Repr

/-- The global `DOWNLOAD_DIR` constant (absolute path of `../downloads`
relative to the backend module). -/
def DOWNLOAD_DIR : String := "/app/downloads"

/-- The `state_str` dict lookup in `get_download_info` with fallback
`"unknown"`. -/
def ltStateStr (s : LtState) : String :=
  match s with
  | .seeding => "seeding"
  | .downloading => "downloading"
  | .finished => "finished"
  | .checking_files => "checking"
  | .checking_resume_data => "checking resume"
  | .other => "unknown"

/-- The synthetic snapshot `get_download_info` builds when
`not status.has_metadata`: name "Fetching Metadata...", status "metadata",
all numeric fields 0, `remaining_time = None`, and `save_path` hardcoded to
the global `DOWNLOAD_DIR`. -/
def ltMetaSnapshot (handle_id : String) : DownloadInfo :=
  { id := handle_id
    name := "Fetching Metadata..."
    status := "metadata"
    progress := 0
    download_speed := 0
    upload_speed := 0
    num_peers := 0
    total_size := 0
    downloaded := 0
    remaining_time := none
    save_path := DOWNLOAD_DIR }

/-- The snapshot `get_download_info` builds from a metadata-complete
`torrent_status`: `remaining` is computed only when `download_rate > 0`,
and `progress` is `status.progress * 100` with no clamping. -/
def ltSnapshot (handle_id : String) (h : Handle) (st : LtStatus) : DownloadInfo :=
  { id := handle_id
    name := if st.has_metadata then h.name else "Unknown"
    status := ltStateStr st.state
    progress := st.progress * 100
    download_speed := st.download_rate
    upload_speed := st.upload_rate
    num_peers := st.num_peers
    total_size := st.total_wanted
    downloaded := (st.total_wanted_done : ℤ)
    remaining_time :=
      if 0 < st.download_rate then
        some ((st.total_wanted - st.total_wanted_done) / st.download_rate)
      else none
    save_path := st.save_path }

/-- `get_download_info(handle_id, handle)` of main.py. Returns `none` for an
invalid handle; propagates an engine error from `handle.status()` (there is
no `try` in this function). -/
def get_download_info (handle_id : String) (h : Handle) :
    Except String (Option DownloadInfo) :=
  if h.is_valid = false then .ok none
  else
    match h.status with
    | .error e => .error e
    | .ok st =>
      if st.has_metadata = false then .ok (some (ltMetaSnapshot handle_id))
      else .ok (some (ltSnapshot handle_id h st))

/-- A registry entry of main.py's `active_downloads`:
`{"handle": ..., "info": ...}`. -/
structure LtEntry where
  handle : Handle
  info : DownloadInfo
deriving Repr

/-- Calls the wrapper issues against the external engine. -/
inductive EngineCmd where
  | removeTorrent (h : Handle)
  | removeTorrentDeleteFiles (h : Handle)
  | pauseTorrent (h : Handle)
  | resumeTorrent (h : Handle)
  | pauseHash (hash : String)
  | resumeHash (hash : String)
  | deleteHashWithFiles (hash : String)
deriving Repr

/-- The seeding-cutoff test in main.py's poll tick:
`status.is_seeding and status.all_time_upload > 2 * status.total_wanted`
(note: `is_seeding`, not the normalized "finished" status, and strict `>`). -/
def ltCutoff (st : LtStatus) : Bool :=
  st.is_seeding && decide (2 * st.total_wanted < st.all_time_upload)

/-- One pass of the body of main.py's `update_torrent_status` over
`list(active_downloads.items())` (with `session` available iff
`hasSession`): skips invalid handles, refreshes `data["info"]`, collects
updates, and applies the seeding cutoff, which removes the entry from the
session (recorded as an `EngineCmd.removeTorrent`) and from the registry.
An exception from `handle.status()` propagates (no handler in main.py). -/
def update_torrent_status_tick (hasSession : Bool) :
    List (String × LtEntry) →
    Except String (List (String × LtEntry) × List DownloadInfo × List EngineCmd)
  | [] => .ok ([], [], [])
  | (hid, e) :: rest =>
    if e.handle.is_valid = false then do
      let (reg', ups, cmds) ← update_torrent_status_tick hasSession rest
      .ok ((hid, e) :: reg', ups, cmds)
    else do
      let oinfo ← get_download_info hid e.handle
      match oinfo with
      | none => do
        let (reg', ups, cmds) ← update_torrent_status_tick hasSession rest
        .ok ((hid, e) :: reg', ups, cmds)
      | some info =>
        if hasSession then do
          let st ← e.handle.status
          if ltCutoff st then do
            let (reg', ups, cmds) ← update_torrent_status_tick hasSession rest
            .ok (reg', info :: ups, EngineCmd.removeTorrent e.handle :: cmds)
          else do
            let (reg', ups, cmds) ← update_torrent_status_tick hasSession rest
            .ok ((hid, { e with info := info }) :: reg', info :: ups, cmds)
        else do
          let (reg', ups, cmds) ← update_torrent_status_tick hasSession rest
          .ok ((hid, { e with info := info }) :: reg', info :: ups, cmds)

/-- The normal poll interval (`await asyncio.sleep(1)`), in seconds. -/
def POLL_INTERVAL_SECONDS : ℕ := 1

/-- The error backoff in main_qbit.py (`await asyncio.sleep(5)`),
in seconds. -/
def ERROR_BACKOFF_SECONDS : ℕ := 5

/-- One iteration of main.py's poller loop around a tick body outcome.
The loop body has no exception handler, so an error escapes the
`while True:` and kills the task: the loop does not continue (`none`).
On success the loop sleeps the normal interval and continues. -/
def ltLoopStep {α : Type} (tick : Except String α) : Option (α × ℕ) :=
  match tick with
  | .ok a => some (a, POLL_INTERVAL_SECONDS)
  | .error _ => none

/-- One iteration of main_qbit.py's poller loop around a tick body outcome.
The whole body sits in `try: ... await asyncio.sleep(1) except: log;
await asyncio.sleep(5)`, so the loop always continues: the normal interval
after a clean tick, the 5-second backoff after an error. -/
def qbitLoopStep {α : Type} (tick : Except String α) : Option (Option α × ℕ) :=
  match tick with
  | .ok a => some (some a, POLL_INTERVAL_SECONDS)
  | .error _ => some (none, ERROR_BACKOFF_SECONDS)

/-! ## qBittorrent backend (src/backend/main_qbit.py) -/

/-- The fields of a qBittorrent torrent record read by the wrapper
(`state_enum` flags flattened in). -/
structure QTorrent where
  name : String
  is_downloading : Bool
  is_uploading : Bool
  is_complete : Bool
  is_checking : Bool
  is_paused : Bool
  progress : ℚ
  dlspeed : ℕ
  upspeed : ℕ
  num_leechs : ℕ
  num_seeds : ℕ
  size : ℕ
  eta : ℕ
  save_path : String
deriving DecidableEq, Repr

/-- A registry entry of main_qbit.py's `active_downloads`:
`{"hash": ..., "info": ...}`. -/
structure QEntry where
  hash : String
  info : DownloadInfo
deriving DecidableEq, Repr

/-- Python `int(q)`: truncation toward zero. -/
def pyInt (q : ℚ) : ℤ :=
  if 0 ≤ q then ⌊q⌋ else ⌈q⌉

/-- The if/elif chain mapping `torrent.state_enum` to the wrapper's state
string in main_qbit.py's `get_download_info`. -/
def qbitStateStr (t : QTorrent) : String :=
  if t.is_downloading then "downloading"
  else if t.is_uploading then "seeding"
  else if t.is_complete then "finished"
  else if t.is_checking then "checking"
  else if t.is_paused then "paused"
  else "unknown"

/-- The snapshot main_qbit.py's `get_download_info` builds from a torrent
record: `remaining = torrent.eta if torrent.eta > 0 else None` (keyed on
`eta`, not on the download rate), `progress = torrent.progress * 100`
unclamped, and `downloaded = int(torrent.size * torrent.progress / 100)`. -/
def qbitSnapshot (handle_id : String) (t : QTorrent) : DownloadInfo :=
  { id := handle_id
    name := t.name
    status := qbitStateStr t
    progress := t.progress * 100
    download_speed := t.dlspeed
    upload_speed := t.upspeed
    num_peers := t.num_leechs + t.num_seeds
    total_size := t.size
    downloaded := pyInt ((t.size : ℚ) * t.progress / 100)
    remaining_time := if 0 < t.eta then some t.eta else none
    save_path := t.save_path }

/-- `get_download_info(handle_id, torrent_hash)` of main_qbit.py. The body
is wrapped in `try/except` returning `None` on failure, so an engine error
(the failed `torrents_info` lookup) is contained here. -/
def qbit_get_download_info (handle_id : String) (lookedUp : Except String QTorrent) :
    Option DownloadInfo :=
  match lookedUp with
  | .error _ => none
  | .ok t => some (qbitSnapshot handle_id t)

/-- One pass of the body of main_qbit.py's `update_torrent_status` over
`list(active_downloads.items())`: refreshes each entry whose status lookup
succeeds, skips the ones whose lookup fails, and never removes an entry
(this backend's tick has no seeding cutoff). `engine` maps a torrent hash
to the engine's answer for it. -/
def qbit_update_torrent_status_tick (engine : String → Except String QTorrent) :
    List (String × QEntry) → List (String × QEntry) × List DownloadInfo
  | [] => ([], [])
  | (hid, e) :: rest =>
    let (reg', ups) := qbit_update_torrent_status_tick engine rest
    match qbit_get_download_info hid (engine e.hash) with
    | none => ((hid, e) :: reg', ups)
    | some info => ((hid, { e with info := info }) :: reg', info :: ups)

/-! ## Control surface (request handlers of both backends) -/

/-- Outcome of a request handler: a success payload or an
`HTTPException(status_code, detail)`. -/
inductive ApiResponse where
  | success (id : Option String) (message : String)
  | httpError (code : ℕ) (detail : String)
deriving DecidableEq, Repr

/-- The request body of `POST /api/download`. -/
structure MagnetLinkRequest where
  magnet_link : String
  save_path : Option String
deriving DecidableEq, Repr

/-- The initial cached snapshot both backends store in `active_downloads`
when a download starts: status "metadata", zeroed numbers, and the
*request-resolved* `save_path`. -/
def initialInfo (handle_id save_path : String) : DownloadInfo :=
  { id := handle_id
    name := "Fetching Metadata..."
    status := "metadata"
    progress := 0
    download_speed := 0
    upload_speed := 0
    num_peers := 0
    total_size := 0
    downloaded := 0
    remaining_time := none
    save_path := save_path }

/-- `start_download` of main.py. `engineUp` is `lt and session`;
`addTorrent` models `lt.parse_magnet_uri` + `session.add_torrent` (either
may raise); `newId` is the fresh `uuid4`. The entire body sits in
`try: ... except Exception as e: raise HTTPException(400, str(e))`, and
`HTTPException` is itself an `Exception` subclass: the
`HTTPException(503, "Libtorrent service not available")` raised for a
missing engine is caught by that handler and re-raised as a 400 whose
detail is `str(e)` of the 503 exception. -/
def start_download (engineUp : Bool) (addTorrent : String → Except String Handle)
    (newId : String) (req : MagnetLinkRequest) (reg : List (String × LtEntry)) :
    ApiResponse × List (String × LtEntry) :=
  if engineUp = false then
    (.httpError 400 "503: Libtorrent service not available", reg)
  else
    let save_path := req.save_path.getD DOWNLOAD_DIR
    match addTorrent req.magnet_link with
    | .error e => (.httpError 400 e, reg)
    | .ok handle =>
      (.success (some newId) "Download started",
       (newId, { handle := handle, info := initialInfo newId save_path }) :: reg)

/-- `cancel_download` of main.py: 404 before anything else when the id is
unknown, then a 503 guard, then `session.remove_torrent(handle,
lt.session.delete_files)` and `del active_downloads[download_id]`. -/
def cancel_download (engineUp : Bool) (reg : List (String × LtEntry)) (did : String) :
    ApiResponse × List (String × LtEntry) × List EngineCmd :=
  match reg.find? (fun p => p.1 == did) with
  | none => (.httpError 404 "Download not found", reg, [])
  | some p =>
    if engineUp = false then
      (.httpError 503 "Libtorrent service not available", reg, [])
    else
      (.success none "Download canceled",
       reg.eraseP (fun q => q.1 == did),
       [EngineCmd.removeTorrentDeleteFiles p.2.handle])

/-- `pause_download` of main.py: 404 when unknown, otherwise only
`handle.pause()` — the registry is untouched. -/
def pause_download (reg : List (String × LtEntry)) (did : String) :
    ApiResponse × List (String × LtEntry) × List EngineCmd :=
  match reg.find? (fun p => p.1 == did) with
  | none => (.httpError 404 "Download not found", reg, [])
  | some p => (.success none "Download paused", reg, [EngineCmd.pauseTorrent p.2.handle])

/-- `resume_download` of main.py: 404 when unknown, otherwise only
`handle.resume()` — the registry is untouched. -/
def resume_download (reg : List (String × LtEntry)) (did : String) :
    ApiResponse × List (String × LtEntry) × List EngineCmd :=
  match reg.find? (fun p => p.1 == did) with
  | none => (.httpError 404 "Download not found", reg, [])
  | some p => (.success none "Download resumed", reg, [EngineCmd.resumeTorrent p.2.handle])

/-- `cancel_download` of main_qbit.py: 404 when unknown, otherwise
`torrents_delete(..., delete_files=True)` and the dict delete. -/
def qbit_cancel_download (reg : List (String × QEntry)) (did : String) :
    ApiResponse × List (String × QEntry) × List EngineCmd :=
  match reg.find? (fun p => p.1 == did) with
  | none => (.httpError 404 "Download not found", reg, [])
  | some p =>
    (.success none "Download canceled",
     reg.eraseP (fun q => q.1 == did),
     [EngineCmd.deleteHashWithFiles p.2.hash])

/-- `pause_download` of main_qbit.py: 404 when unknown, otherwise only
`torrents_pause` — the registry is untouched. -/
def qbit_pause_download (reg : List (String × QEntry)) (did : String) :
    ApiResponse × List (String × QEntry) × List EngineCmd :=
  match reg.find? (fun p => p.1 == did) with
  | none => (.httpError 404 "Download not found", reg, [])
  | some p => (.success none "Download paused", reg, [EngineCmd.pauseHash p.2.hash])

/-- `resume_download` of main_qbit.py: 404 when unknown, otherwise only
`torrents_resume` — the registry is untouched. -/
def qbit_resume_download (reg : List (String × QEntry)) (did : String) :
    ApiResponse × List (String × QEntry) × List EngineCmd :=
  match reg.find? (fun p => p.1 == did) with
  | none => (.httpError 404 "Download not found", reg, [])
  | some p => (.success none "Download resumed", reg, [EngineCmd.resumeHash p.2.hash])

/-! ## Concrete fixtures used by counterexamples and witnesses -/

/-- A hub with two subscribers whose first send fails and second succeeds. -/
def hubWithFailingFirst : ConnectionManager :=
  { active_connections := [{ cid := 0, sendOk := false }, { cid := 1, sendOk := true }] }

/-- A finished torrent sitting exactly at a 2.0 seeding ratio:
`all_time_upload = 2 * total_wanted`. -/
def seedBoundaryStatus : LtStatus :=
  { has_metadata := true, state := .finished, progress := 1, download_rate := 0
    upload_rate := 5, num_peers := 2, total_wanted := 100, total_wanted_done := 100
    save_path := DOWNLOAD_DIR, is_seeding := true, all_time_upload := 200 }

/-- Handle reporting `seedBoundaryStatus`. -/
def seedBoundaryHandle : Handle :=
  { is_valid := true, name := "t-boundary", status := .ok seedBoundaryStatus }

/-- Registry entry for the boundary-ratio torrent. -/
def seedBoundaryEntry : LtEntry :=
  { handle := seedBoundaryHandle, info := initialInfo "d1" DOWNLOAD_DIR }

/-- The boundary torrent pushed strictly past the cutoff:
`all_time_upload = 3 * total_wanted`. -/
def seedOverStatus : LtStatus :=
  { seedBoundaryStatus with all_time_upload := 300 }

/-- Handle reporting `seedOverStatus`. -/
def seedOverHandle : Handle :=
  { is_valid := true, name := "t-over", status := .ok seedOverStatus }

/-- Registry entry for the over-the-cutoff torrent. -/
def seedOverEntry : LtEntry :=
  { handle := seedOverHandle, info := initialInfo "d1" DOWNLOAD_DIR }

/-- A valid handle whose `status()` engine call raises. -/
def failingHandle : Handle :=
  { is_valid := true, name := "t-failing", status := .error "engine failure" }

/-- Registry entry owning `failingHandle`. -/
def failingEntry : LtEntry :=
  { handle := failingHandle, info := initialInfo "d2" DOWNLOAD_DIR }

/-- An engine status with no metadata yet (pre-fetch phase). -/
def preMetaStatus : LtStatus :=
  { has_metadata := false, state := .downloading, progress := 0, download_rate := 0
    upload_rate := 0, num_peers := 0, total_wanted := 0, total_wanted_done := 0
    save_path := "", is_seeding := false, all_time_upload := 0 }

/-- A valid handle still fetching metadata. -/
def preMetaHandle : Handle :=
  { is_valid := true, name := "t-premeta", status := .ok preMetaStatus }

/-- A registry entry wrapping `preMetaHandle`. -/
def sampleEntry : LtEntry :=
  { handle := preMetaHandle, info := initialInfo "d1" DOWNLOAD_DIR }

/-- The initial state of the repo's own `MockTorrent` (main_qbit.py):
zero download speed with `eta = 3600`. -/
def stalledTorrent : QTorrent :=
  { name := "Mock Torrent", is_downloading := true, is_uploading := false
    is_complete := false, is_checking := false, is_paused := false
    progress := 0, dlspeed := 0, upspeed := 0, num_leechs := 0, num_seeds := 0
    size := 1000000000, eta := 3600, save_path := DOWNLOAD_DIR }

/-- The repo's `MockTorrent` after ~100 simulation steps: its `progress`
counts 0–100 (`self.progress += 0.5` up to 100), here at 50. -/
def midTorrent : QTorrent :=
  { stalledTorrent with progress := 50, dlspeed := 500000, eta := 1800 }

/-! ## Helper lemmas -/

/-- Reduction of a successful bind in the `Except` monad. -/
theorem exceptOkBind {ε α β : Type} (a : α) (f : α → Except ε β) :
    (Except.ok a : Except ε α) >>= f = f a := rfl

/-! ## Claims -/

/-- C1 (amended): a delivery failure to one subscriber does not prevent
delivery to any other subscriber — every connection whose send succeeds
receives the batch — but the failing subscriber is NOT removed by
`broadcast`: the subscriber set after a broadcast is exactly the set
before it. Removal happens only through an explicit `disconnect` call. -/
theorem broadcast_isolates_failures_without_removal
    (m : ConnectionManager) (message : List DownloadInfo) :
    (∀ c ∈ m.active_connections, c.sendOk = true → (c, message) ∈ (m.broadcast message).2)
    ∧ (m.broadcast message).1 = m := by
  refine ⟨?_, rfl⟩
  intro c hc hok
  simp only [ConnectionManager.broadcast, List.mem_map, List.mem_filter]
  exact ⟨c, ⟨hc, hok⟩, rfl⟩

/-- Witness for `broadcast_isolates_failures_without_removal` at a
two-subscriber hub whose first subscriber fails. -/
theorem broadcast_isolates_failures_without_removal_witness :
    (({ cid := 1, sendOk := true } : Conn), ([] : List DownloadInfo))
        ∈ (hubWithFailingFirst.broadcast []).2
    ∧ (hubWithFailingFirst.broadcast []).1 = hubWithFailingFirst :=
  ⟨(broadcast_isolates_failures_without_removal hubWithFailingFirst []).1
      { cid := 1, sendOk := true } (by decide) rfl,
   (broadcast_isolates_failures_without_removal hubWithFailingFirst []).2⟩

/-- C1 counterexample: with subscribers `[fail, ok]`, the batch is delivered
to the healthy subscriber only, yet the failing subscriber is still in the
subscriber set after the broadcast — the claimed automatic removal does not
happen. -/
theorem broadcast_failing_subscriber_kept_cex :
    ((hubWithFailingFirst.broadcast []).2.map (fun p => p.1)
        = [{ cid := 1, sendOk := true }])
    ∧ ({ cid := 0, sendOk := false } : Conn)
        ∈ ((hubWithFailingFirst.broadcast []).1).active_connections := by
  decide

/-- C10: `disconnect` on a handle not in the subscriber set leaves the set
unchanged and does not fail; consequently (for the duplicate-free sets
`connect` builds, one append per accepted socket) a second `disconnect` of
the same handle is a no-op. -/
theorem disconnect_missing_noop (m : ConnectionManager) (ws : Conn) :
    (ws ∉ m.active_connections → m.disconnect ws = m)
    ∧ (m.active_connections.Nodup →
        (m.disconnect ws).disconnect ws = m.disconnect ws) := by
  constructor
  · intro h
    simp [ConnectionManager.disconnect, h]
  · intro hnd
    by_cases hmem : ws ∈ m.active_connections
    · have herased : ws ∉ m.active_connections.erase ws := by
        intro hc
        exact ((List.Nodup.mem_erase_iff hnd).1 hc).1 rfl
      simp [ConnectionManager.disconnect, hmem, herased]
    · simp [ConnectionManager.disconnect, hmem]

/-- Witness for `disconnect_missing_noop`: disconnecting an absent handle
from a one-element set is a no-op, twice over. -/
theorem disconnect_missing_noop_witness :
    ((ConnectionManager.mk [{ cid := 0, sendOk := true }]).disconnect
        { cid := 1, sendOk := true } = ConnectionManager.mk [{ cid := 0, sendOk := true }])
    ∧ (((ConnectionManager.mk [{ cid := 0, sendOk := true }]).disconnect
        { cid := 1, sendOk := true }).disconnect { cid := 1, sendOk := true }
      = (ConnectionManager.mk [{ cid := 0, sendOk := true }]).disconnect
        { cid := 1, sendOk := true }) :=
  ⟨(disconnect_missing_noop _ _).1 (by decide),
   (disconnect_missing_noop _ _).2 (by decide)⟩

/-- C2 (amended): in the libtorrent backend the poll tick removes an entry
from both the registry and the engine exactly when the engine status
reports `is_seeding` with cumulative upload STRICTLY greater than twice
`total_wanted` (not: normalized status "finished" with upload at least
twice the size); otherwise the entry stays with a refreshed snapshot.
The qBittorrent backend's tick never removes an entry at all. -/
theorem seeding_cutoff_characterization :
    (∀ (hid : String) (e : LtEntry) (st : LtStatus)
        (rest reg' : List (String × LtEntry)) (ups : List DownloadInfo)
        (cmds : List EngineCmd),
      e.handle.is_valid = true → e.handle.status = .ok st → st.has_metadata = true →
      update_torrent_status_tick true rest = .ok (reg', ups, cmds) →
      (ltCutoff st = true →
        update_torrent_status_tick true ((hid, e) :: rest)
          = .ok (reg', ltSnapshot hid e.handle st :: ups,
                 EngineCmd.removeTorrent e.handle :: cmds))
      ∧ (ltCutoff st = false →
        update_torrent_status_tick true ((hid, e) :: rest)
          = .ok ((hid, { e with info := ltSnapshot hid e.handle st }) :: reg',
                 ltSnapshot hid e.handle st :: ups, cmds)))
    ∧ (∀ st : LtStatus,
        ltCutoff st = true ↔
          (st.is_seeding = true ∧ 2 * st.total_wanted < st.all_time_upload))
    ∧ (∀ (engine : String → Except String QTorrent) (qreg : List (String × QEntry)),
        ((qbit_update_torrent_status_tick engine qreg).1).map Prod.fst
          = qreg.map Prod.fst) := by
  refine ⟨?_, ?_, ?_⟩
  · intro hid e st rest reg' ups cmds hv hst hm hrest
    constructor
    · intro hcut
      simp [update_torrent_status_tick, hv, hst, hm, hcut, hrest,
            get_download_info, exceptOkBind]
    · intro hcut
      simp [update_torrent_status_tick, hv, hst, hm, hcut, hrest,
            get_download_info, exceptOkBind]
  · intro st
    simp [ltCutoff, Bool.and_eq_true, decide_eq_true_eq]
  · intro engine qreg
    induction qreg with
    | nil => rfl
    | cons hd tl ih =>
      obtain ⟨hid, e⟩ := hd
      simp only [qbit_update_torrent_status_tick]
      cases qbit_get_download_info hid (engine e.hash) with
      | none => simpa using ih
      | some info => simpa using ih

/-- Witness for `seeding_cutoff_characterization`: a singleton registry
whose torrent is past the strict cutoff ends the tick empty, with one
collected snapshot and one engine removal. -/
theorem seeding_cutoff_characterization_witness :
    update_torrent_status_tick true [("d1", seedOverEntry)]
      = .ok ([], [ltSnapshot "d1" seedOverEntry.handle seedOverStatus],
             [EngineCmd.removeTorrent seedOverEntry.handle]) :=
  (seeding_cutoff_characterization.1 "d1" seedOverEntry seedOverStatus [] [] [] []
      rfl rfl rfl rfl).1 (by decide)

/-- C2 counterexample: a torrent whose normalized status is "finished" and
whose cumulative upload is exactly twice its total size (so "at least
twice" holds) survives the next poll tick — the registry still holds its
id and no engine removal is issued, because the code requires a STRICT
`>` on `2 * total_wanted`. -/
theorem seeding_cutoff_boundary_cex :
    (ltSnapshot "d1" seedBoundaryEntry.handle seedBoundaryStatus).status = "finished"
    ∧ 2 * seedBoundaryStatus.total_wanted ≤ seedBoundaryStatus.all_time_upload
    ∧ (update_torrent_status_tick true [("d1", seedBoundaryEntry)]).toOption.map
        (fun r => (r.1.map Prod.fst, r.2.2.isEmpty)) = some (["d1"], true) := by
  refine ⟨rfl, by decide, rfl⟩

/-- C3 (amended): in the qBittorrent backend every tick-body outcome lets
the loop continue — and an error makes it continue after the 5-second
backoff, five times the normal 1-second poll interval. In the libtorrent
backend the loop body has no handler, so an error raised inside one tick
terminates the poller loop. -/
theorem poller_error_backoff {α : Type} (tick : Except String α) :
    ((qbitLoopStep tick).isSome = true
      ∧ (∀ e, tick = .error e → qbitLoopStep tick = some (none, ERROR_BACKOFF_SECONDS)))
    ∧ ERROR_BACKOFF_SECONDS = 5 * POLL_INTERVAL_SECONDS
    ∧ (∀ a, tick = .ok a → ltLoopStep tick = some (a, POLL_INTERVAL_SECONDS))
    ∧ (∀ e, tick = .error e → ltLoopStep tick = none) := by
  refine ⟨⟨?_, ?_⟩, rfl, ?_, ?_⟩
  · cases tick <;> rfl
  · intro e he; subst he; rfl
  · intro a ha; subst ha; rfl
  · intro e he; subst he; rfl

/-- Witness for `poller_error_backoff` at a concrete failed tick body. -/
theorem poller_error_backoff_witness :
    qbitLoopStep (.error "boom" : Except String Unit)
        = some (none, ERROR_BACKOFF_SECONDS)
    ∧ ERROR_BACKOFF_SECONDS = 5 * POLL_INTERVAL_SECONDS :=
  ⟨(poller_error_backoff (.error "boom" : Except String Unit)).1.2 "boom" rfl,
   (poller_error_backoff (.error "boom" : Except String Unit)).2.1⟩

/-- C3 counterexample: in the libtorrent backend, a registry whose single
entry's `handle.status()` call raises makes the whole tick fail, and the
unprotected loop body terminates the poller: the loop does not continue to
a next tick at all. -/
theorem poller_error_terminates_cex :
    ltLoopStep (update_torrent_status_tick true [("d2", failingEntry)]) = none := rfl

/-- C4 (amended): in the libtorrent backend, every snapshot the normalizer
produces has `remaining_time` defined exactly when its reported download
rate is strictly positive. In the qBittorrent backend, `remaining_time` is
defined exactly when the engine-reported `eta` is positive, independent of
the download rate. -/
theorem remaining_time_definedness :
    (∀ (hid : String) (h : Handle) (info : DownloadInfo),
      get_download_info hid h = .ok (some info) →
      ((info.remaining_time).isSome = true ↔ 0 < info.download_speed))
    ∧ (∀ (hid : String) (t : QTorrent),
      ((qbitSnapshot hid t).remaining_time).isSome = true ↔ 0 < t.eta) := by
  constructor
  · intro hid h info hok
    by_cases hv : h.is_valid = false
    · simp [get_download_info, hv] at hok
    · cases hsEng : h.status with
      | error e => simp [get_download_info, hv, hsEng] at hok
      | ok st =>
        by_cases hm : st.has_metadata = false
        · simp [get_download_info, hv, hsEng, hm] at hok
          subst hok
          simp [ltMetaSnapshot]
        · simp [get_download_info, hv, hsEng, hm] at hok
          subst hok
          by_cases hr : 0 < st.download_rate
          · simp [ltSnapshot, hr]
          · simp [ltSnapshot, hr]
  · intro hid t
    by_cases he : 0 < t.eta
    · simp [qbitSnapshot, he]
    · simp [qbitSnapshot, he]

/-- Witness for `remaining_time_definedness` at the pre-metadata handle and
the repo's initial mock torrent. -/
theorem remaining_time_definedness_witness :
    (((ltMetaSnapshot "w1").remaining_time).isSome = true
      ↔ 0 < (ltMetaSnapshot "w1").download_speed)
    ∧ (((qbitSnapshot "w1" stalledTorrent).remaining_time).isSome = true
      ↔ 0 < stalledTorrent.eta) :=
  ⟨remaining_time_definedness.1 "w1" preMetaHandle (ltMetaSnapshot "w1") rfl,
   remaining_time_definedness.2 "w1" stalledTorrent⟩

/-- C4 counterexample: the repo's own initial `MockTorrent` state
(`dlspeed = 0`, `eta = 3600`) normalizes to a snapshot with a zero download
rate and yet a DEFINED `remaining_time` of 3600 — the claimed
"defined iff rate strictly positive" fails in the qBittorrent backend. -/
theorem remaining_time_zero_rate_cex :
    (qbitSnapshot "d3" stalledTorrent).download_speed = 0
    ∧ (qbitSnapshot "d3" stalledTorrent).remaining_time = some 3600 := ⟨rfl, rfl⟩

/-- C5 (amended): for a valid handle whose engine status has no metadata
yet, the normalizer returns the synthetic snapshot with status "metadata"
and all numeric fields zero — but its `save_path` is the GLOBAL default
download directory, not the entry's configured save path; the configured
path appears only in the initial cached snapshot that `start_download`
stores in the registry. -/
theorem premeta_snapshot_uses_global_dir :
    (∀ (hid : String) (h : Handle) (st : LtStatus),
      h.is_valid = true → h.status = .ok st → st.has_metadata = false →
      get_download_info hid h = .ok (some (ltMetaSnapshot hid)))
    ∧ (∀ hid : String,
        (ltMetaSnapshot hid).status = "metadata"
        ∧ (ltMetaSnapshot hid).progress = 0
        ∧ (ltMetaSnapshot hid).download_speed = 0
        ∧ (ltMetaSnapshot hid).upload_speed = 0
        ∧ (ltMetaSnapshot hid).num_peers = 0
        ∧ (ltMetaSnapshot hid).total_size = 0
        ∧ (ltMetaSnapshot hid).downloaded = 0
        ∧ (ltMetaSnapshot hid).save_path = DOWNLOAD_DIR)
    ∧ (∀ (addTorrent : String → Except String Handle) (newId : String)
        (req : MagnetLinkRequest) (reg : List (String × LtEntry)) (h : Handle),
        addTorrent req.magnet_link = .ok h →
        start_download true addTorrent newId req reg
          = (.success (some newId) "Download started",
             (newId, { handle := h
                       info := initialInfo newId (req.save_path.getD DOWNLOAD_DIR) }) :: reg)) := by
  refine ⟨?_, ?_, ?_⟩
  · intro hid h st hv hsEng hm
    simp [get_download_info, hv, hsEng, hm]
  · intro hid
    exact ⟨rfl, rfl, rfl, rfl, rfl, rfl, rfl, rfl⟩
  · intro addTorrent newId req reg h hadd
    simp [start_download, hadd]

/-- Witness for `premeta_snapshot_uses_global_dir` at the concrete
pre-metadata handle and a start request with a custom save path. -/
theorem premeta_snapshot_uses_global_dir_witness :
    get_download_info "w3" preMetaHandle = .ok (some (ltMetaSnapshot "w3"))
    ∧ (ltMetaSnapshot "w3").save_path = DOWNLOAD_DIR
    ∧ start_download true (fun _ => .ok preMetaHandle) "w3"
        { magnet_link := "magnet:?xt=urn:btih:w3", save_path := some "/custom" } []
      = (.success (some "w3") "Download started",
         [("w3", { handle := preMetaHandle, info := initialInfo "w3" "/custom" })]) :=
  ⟨premeta_snapshot_uses_global_dir.1 "w3" preMetaHandle preMetaStatus rfl rfl rfl,
   (premeta_snapshot_uses_global_dir.2.1 "w3").2.2.2.2.2.2.2,
   premeta_snapshot_uses_global_dir.2.2 (fun _ => .ok preMetaHandle) "w3"
     { magnet_link := "magnet:?xt=urn:btih:w3", save_path := some "/custom" } []
     preMetaHandle rfl⟩

/-- C5 counterexample: an entry started with configured save path
"/custom" caches that path, yet the pre-metadata snapshot produced by the
normalizer for its handle reports the global `DOWNLOAD_DIR` instead — the
claimed "entry's configured save path" is wrong whenever a custom path was
supplied. -/
theorem premeta_save_path_cex :
    (start_download true (fun _ => .ok preMetaHandle) "d4"
        { magnet_link := "magnet:?xt=urn:btih:d4", save_path := some "/custom" } []).2
      = [("d4", { handle := preMetaHandle, info := initialInfo "d4" "/custom" })]
    ∧ (get_download_info "d4" preMetaHandle).toOption.map
        (Option.map DownloadInfo.save_path) = some (some DOWNLOAD_DIR)
    ∧ DOWNLOAD_DIR ≠ "/custom" := by
  refine ⟨rfl, rfl, by decide⟩

/-- C6 (amended): in both backends the reported progress is the
engine-reported progress value multiplied by 100 with NO clamping; the
result lies in [0, 100] only under the assumption that the engine value
lies in [0, 1]. -/
theorem progress_unclamped_scaling :
    (∀ (hid : String) (h : Handle) (st : LtStatus),
      (ltSnapshot hid h st).progress = st.progress * 100
      ∧ (0 ≤ st.progress → st.progress ≤ 1 →
          0 ≤ (ltSnapshot hid h st).progress ∧ (ltSnapshot hid h st).progress ≤ 100))
    ∧ (∀ (hid : String) (t : QTorrent),
      (qbitSnapshot hid t).progress = t.progress * 100
      ∧ (0 ≤ t.progress → t.progress ≤ 1 →
          0 ≤ (qbitSnapshot hid t).progress ∧ (qbitSnapshot hid t).progress ≤ 100)) := by
  constructor
  · intro hid h st
    refine ⟨rfl, ?_⟩
    intro h0 h1
    constructor
    · show (0 : ℚ) ≤ st.progress * 100
      nlinarith
    · show st.progress * 100 ≤ (100 : ℚ)
      nlinarith
  · intro hid t
    refine ⟨rfl, ?_⟩
    intro h0 h1
    constructor
    · show (0 : ℚ) ≤ t.progress * 100
      nlinarith
    · show t.progress * 100 ≤ (100 : ℚ)
      nlinarith

/-- Witness for `progress_unclamped_scaling` at the repo's initial mock
torrent (engine progress 0). -/
theorem progress_unclamped_scaling_witness :
    (qbitSnapshot "w4" stalledTorrent).progress = stalledTorrent.progress * 100
    ∧ (0 ≤ (qbitSnapshot "w4" stalledTorrent).progress
        ∧ (qbitSnapshot "w4" stalledTorrent).progress ≤ 100) :=
  ⟨(progress_unclamped_scaling.2 "w4" stalledTorrent).1,
   (progress_unclamped_scaling.2 "w4" stalledTorrent).2 (by norm_num [stalledTorrent])
     (by norm_num [stalledTorrent])⟩

/-- C6 counterexample: the repo's own `MockTorrent` counts `progress` from
0 to 100; at mock progress 50 the normalizer reports
`progress = 50 * 100 = 5000`, far outside [0, 100] — there is no clamping
in the code. -/
theorem progress_out_of_range_cex :
    (qbitSnapshot "d5" midTorrent).progress = 5000
    ∧ ¬ (qbitSnapshot "d5" midTorrent).progress ≤ 100 := by
  constructor
  · norm_num [qbitSnapshot, midTorrent, stalledTorrent]
  · norm_num [qbitSnapshot, midTorrent, stalledTorrent]

/-- C7 (code bug): when the engine is unavailable, `start_download` raises
`HTTPException(503)` INSIDE its own `try` block whose
`except Exception as e` catches every `Exception` — including
`HTTPException` — and re-raises `HTTPException(400, str(e))`. The caller
therefore observes a 400, not the intended 503. -/
theorem start_engine_unavailable_gives_400
    (addTorrent : String → Except String Handle) (newId : String)
    (req : MagnetLinkRequest) (reg : List (String × LtEntry)) :
    start_download false addTorrent newId req reg
      = (.httpError 400 "503: Libtorrent service not available", reg) := rfl

/-- C8: in both backends, a cancel request for an id not present in the
registry returns 404 "Download not found", leaves the registry unchanged,
and issues no engine call. -/
theorem cancel_unknown_id_404
    (engineUp : Bool) (reg : List (String × LtEntry))
    (qreg : List (String × QEntry)) (did : String)
    (h1 : did ∉ reg.map Prod.fst) (h2 : did ∉ qreg.map Prod.fst) :
    cancel_download engineUp reg did = (.httpError 404 "Download not found", reg, [])
    ∧ qbit_cancel_download qreg did = (.httpError 404 "Download not found", qreg, []) := by
  have hf1 : reg.find? (fun p => p.1 == did) = none := by
    rw [List.find?_eq_none]
    intro p hp
    simp only [beq_iff_eq]
    intro hc
    exact h1 (hc ▸ List.mem_map_of_mem Prod.fst hp)
  have hf2 : qreg.find? (fun p => p.1 == did) = none := by
    rw [List.find?_eq_none]
    intro p hp
    simp only [beq_iff_eq]
    intro hc
    exact h2 (hc ▸ List.mem_map_of_mem Prod.fst hp)
  exact ⟨by simp [cancel_download, hf1], by simp [qbit_cancel_download, hf2]⟩

/-- Witness for `cancel_unknown_id_404`: cancelling an unknown id on a
nonempty registry that does not hold it. -/
theorem cancel_unknown_id_404_witness :
    cancel_download true [("d1", sampleEntry)] "missing"
        = (.httpError 404 "Download not found", [("d1", sampleEntry)], [])
    ∧ qbit_cancel_download [] "missing"
        = (.httpError 404 "Download not found", [], []) :=
  cancel_unknown_id_404 true [("d1", sampleEntry)] [] "missing"
    (by simp) (by simp)

/-- C9: in both backends, the pause and resume handlers never change the
registry — in particular every field of the addressed entry is unchanged —
and for a present id they only issue the corresponding engine call on that
entry's engine reference (handle or hash). -/
theorem pause_resume_registry_frame
    (reg : List (String × LtEntry)) (qreg : List (String × QEntry)) (did : String) :
    ((pause_download reg did).2.1 = reg
      ∧ (resume_download reg did).2.1 = reg
      ∧ (qbit_pause_download qreg did).2.1 = qreg
      ∧ (qbit_resume_download qreg did).2.1 = qreg)
    ∧ (∀ p, reg.find? (fun q => q.1 == did) = some p →
        pause_download reg did
            = (.success none "Download paused", reg, [EngineCmd.pauseTorrent p.2.handle])
        ∧ resume_download reg did
            = (.success none "Download resumed", reg, [EngineCmd.resumeTorrent p.2.handle]))
    ∧ (∀ p, qreg.find? (fun q => q.1 == did) = some p →
        qbit_pause_download qreg did
            = (.success none "Download paused", qreg, [EngineCmd.pauseHash p.2.hash])
        ∧ qbit_resume_download qreg did
            = (.success none "Download resumed", qreg, [EngineCmd.resumeHash p.2.hash])) := by
  refine ⟨⟨?_, ?_, ?_, ?_⟩, ?_, ?_⟩
  · unfold pause_download
    cases reg.find? (fun q => q.1 == did) <;> rfl
  · unfold resume_download
    cases reg.find? (fun q => q.1 == did) <;> rfl
  · unfold qbit_pause_download
    cases qreg.find? (fun q => q.1 == did) <;> rfl
  · unfold qbit_resume_download
    cases qreg.find? (fun q => q.1 == did) <;> rfl
  · intro p hp
    exact ⟨by simp [pause_download, hp], by simp [resume_download, hp]⟩
  · intro p hp
    exact ⟨by simp [qbit_pause_download, hp], by simp [qbit_resume_download, hp]⟩

/-- Witness for `pause_resume_registry_frame`: pausing and resuming the
only entry of a singleton registry leaves it unchanged and emits exactly
the engine call on that entry's handle. -/
theorem pause_resume_registry_frame_witness :
    pause_download [("d1", sampleEntry)] "d1"
        = (.success none "Download paused", [("d1", sampleEntry)],
           [EngineCmd.pauseTorrent sampleEntry.handle])
    ∧ resume_download [("d1", sampleEntry)] "d1"
        = (.success none "Download resumed", [("d1", sampleEntry)],
           [EngineCmd.resumeTorrent sampleEntry.handle]) :=
  (pause_resume_registry_frame [("d1", sampleEntry)] [] "d1").2.1
    ("d1", sampleEntry) rfl

end P2P
